import Mathlib

/-!
Verification of the moodboard-agent client against its specification.

The repository's client is a small React application:
* `App` (the Request Orchestrator) holds the lifecycle flags
  `analyzing`, `result`, `error`, `resetKey`, issues the single outbound
  `fetch` per submit, and resets on user request;
* `ImageUpload` (the Upload Capture) validates the MIME type of a dropped
  or picked file and forwards valid files to the orchestrator;
* `MoodDisplay` and `MusicRecommendations` (the Result Renderer) are pure
  data-to-markup mappers.

Below, each JavaScript function is embedded as a Lean function over an
explicit state; JavaScript numbers appearing as integers are embedded as
`Nat`, the mood confidence (a fraction in [0,1]) as `ℚ`.
-/

/- ========================= Data model (spec §3) ========================= -/

/-- A track record of the analysis response
(`music_recommendations.tracks[i]`), as consumed by `MusicRecommendations`. -/
structure Track where
  name : String
  artist : String
  album : String
  duration_ms : Nat
  image : Option String
  preview_url : Option String
  url : Option String
deriving DecidableEq

/-- A playlist record of the analysis response (`playlists[i]`),
as consumed by `MusicRecommendations`. -/
structure Playlist where
  name : String
  description : Option String
  tracks : Option Nat
  image : Option String
  url : Option String
deriving DecidableEq

/-- The `mood_analysis` part of the analysis response,
as consumed by `MoodDisplay`. -/
structure MoodAnalysis where
  primary_mood : String
  confidence : ℚ
  secondary_moods : Option (List String)
  reasoning : Option String
  visual_elements : Option (List (String × String))
deriving DecidableEq

/-- The `music_recommendations` part of the analysis response,
as consumed by `MusicRecommendations`. -/
structure MusicRecommendations where
  mood : String
  mood_description : String
  genres : Option (List String)
  track_count : Nat
  tracks : List Track
deriving DecidableEq

/-- The decoded JSON body of a successful `/analyze` response. -/
structure AnalysisResult where
  mood_analysis : MoodAnalysis
  music_recommendations : MusicRecommendations
  playlists : Option (List Playlist)
deriving DecidableEq

/- ================== Result Renderer: MusicRecommendations.js =========== -/

/-- JavaScript's `String.prototype.startsWith`, character-wise. -/
def jsStartsWith (s pre : String) : Bool :=
  s.data.take pre.data.length == pre.data

/-- One character of JavaScript's `String.prototype.toLowerCase` (Unicode
Default Case Conversion). Embedded exactly on every code point whose
lowercase lands in ASCII: the letters `A`-`Z` and U+212A KELVIN SIGN,
which lowers to `k` — the only such code points — plus the one
unconditional special mapping, U+0130 LATIN CAPITAL LETTER I WITH DOT
ABOVE, which expands to `i` followed by U+0307. Every other character is
kept unchanged: its true lowercase is again non-ASCII, and both key sets a
lower-cased string is compared against in this file (`moodEmojis` and the
`Object.prototype` names) are pure ASCII, so such a string misses them
either way and every lookup is decided exactly as in the program. -/
def jsCharToLower (c : Char) : List Char :=
  if 'A' ≤ c ∧ c ≤ 'Z' then [Char.ofNat (c.toNat + 32)]
  else if c = '\u212A' then ['k']
  else if c = '\u0130' then ['i', '\u0307']
  else [c]

/-- JavaScript's `String.prototype.toLowerCase`, character by character. -/
def jsToLowerCase (s : String) : String :=
  String.mk (s.data.flatMap jsCharToLower)

/-- JavaScript's `String.prototype.padStart(n, c)` as used on the seconds string. -/
def padStart (s : String) (n : Nat) (c : Char) : String :=
  if s.length ≥ n then s else String.mk (List.replicate (n - s.length) c) ++ s

/-- Function `formatDuration` from `MusicRecommendations.js` lines 5-9:
`minutes = Math.floor(ms / 60000)`;
`seconds = ((ms % 60000) / 1000).toFixed(0)` — `toFixed(0)` rounds to the
nearest integer, half up, which on naturals is `(ms % 60000 + 500) / 1000`
(the halves `…500 / 1000` are exact dyadic doubles, so the float division
never flips the rounding); result `` `${minutes}:${seconds.padStart(2,'0')}` ``. -/
def formatDuration (ms : Nat) : String :=
  let minutes := ms / 60000
  let seconds := Nat.repr ((ms % 60000 + 500) / 1000)
  Nat.repr minutes ++ ":" ++ padStart seconds 2 '0'

/-- The duration format claim C6 states, written from the spec's words for
comparison with `formatDuration`: minutes `ms div 60000`, seconds
`(ms mod 60000) div 1000` zero-padded to two digits. -/
def formatDurationSpecC6 (ms : Nat) : String :=
  Nat.repr (ms / 60000) ++ ":" ++ padStart (Nat.repr ((ms % 60000) / 1000)) 2 '0'

/- ======================= Result Renderer: MoodDisplay.js ================ -/

/-- The `moodEmojis` table of `MoodDisplay.js` lines 5-16. -/
def moodEmojis : List (String × String) :=
  [("calm", "😌"), ("energetic", "⚡"), ("romantic", "💕"), ("dark", "🌑"),
   ("melancholic", "😔"), ("joyful", "😄"), ("mysterious", "🔮"),
   ("aggressive", "😤"), ("dreamy", "✨"), ("uplifting", "🌟")]

/-- What the JavaScript property read `moodEmojis[key]` can yield: an own
emoji string, a method inherited from `Object.prototype` (a function),
the prototype object itself (read through the inherited `__proto__`
accessor), or `undefined`. -/
inductive JsPropValue where
  | str (s : String)
  | protoFunction (name : String)
  | protoObject
  | jsUndefined
deriving DecidableEq

/-- The method names every plain object inherits from `Object.prototype`
(besides the `__proto__` accessor); each is a function, hence truthy. -/
def objectPrototypeMethods : List String :=
  ["constructor", "hasOwnProperty", "isPrototypeOf", "propertyIsEnumerable",
   "toLocaleString", "toString", "valueOf", "__defineGetter__",
   "__defineSetter__", "__lookupGetter__", "__lookupSetter__"]

/-- The property read `moodEmojis[key]` on the plain object literal of
`MoodDisplay.js` lines 5-16: own properties first, then the prototype
chain — `Object.prototype` — and only then `undefined`. -/
def moodEmojisGet (key : String) : JsPropValue :=
  match moodEmojis.lookup key with
  | some e => .str e
  | none =>
      if key = "__proto__" then .protoObject
      else if objectPrototypeMethods.contains key then .protoFunction key
      else .jsUndefined

/-- JavaScript truthiness of such a value: a string is truthy iff
non-empty; functions and objects are truthy; `undefined` is falsy. -/
def JsPropValue.truthy : JsPropValue → Bool
  | .str s => s ≠ ""
  | .protoFunction _ => true
  | .protoObject => true
  | .jsUndefined => false

/-- Function `getMoodEmoji` from `MoodDisplay.js` lines 18-20:
`moodEmojis[mood.toLowerCase()] || '🎨'` — the looked-up property when it
is truthy, the fallback string otherwise. Inherited `Object.prototype`
members are truthy, so on their names the fallback never fires. -/
def getMoodEmoji (mood : String) : JsPropValue :=
  let v := moodEmojisGet (jsToLowerCase mood)
  if v.truthy then v else .str "🎨"

/-- What React makes of the child `{getMoodEmoji(mood)}`: a string child
contributes its text; a function child contributes nothing (React logs an
error but keeps rendering), as would `undefined` (unreachable here, since
`getMoodEmoji` replaces falsy values by the fallback); an object child —
`Object.prototype`, reached through `__proto__` — makes React throw,
modelled as `none`. -/
def renderedMoodChild (mood : String) : Option String :=
  match getMoodEmoji mood with
  | .str s => some s
  | .protoFunction _ => some ""
  | .jsUndefined => some ""
  | .protoObject => none

/-- The text the same child contributes when the render completes (a
`__proto__` label aborts the whole render instead, which
`renderedMoodChild` models); used in the flattened sections. -/
def moodEmojiText (mood : String) : String :=
  match getMoodEmoji mood with
  | .str s => s
  | .protoFunction _ => ""
  | .jsUndefined => ""
  | .protoObject => ""

/-- The confidence-bar fill width, `MoodDisplay.js` line 33:
`width: ${moodAnalysis.confidence * 100}%` (the numeric part). -/
def confidenceFillWidth (confidence : ℚ) : ℚ :=
  confidence * 100

/-- The full CSS width string of the confidence bar fill. -/
def confidenceFillStyle (confidence : ℚ) : String :=
  toString (confidenceFillWidth confidence) ++ "%"

/-- The child rendered for the primary mood, `MoodDisplay.js` line 27. -/
def renderedPrimaryEmoji (ma : MoodAnalysis) : Option String :=
  renderedMoodChild ma.primary_mood

/-- The secondary-moods section of `MoodDisplay.js` lines 42-53, flattened to
its text fragments: guarded by
`moodAnalysis.secondary_moods && moodAnalysis.secondary_moods.length > 0`
(an empty array is truthy in JavaScript, so the length test carries the
empty case), then one `{getMoodEmoji(mood)} {mood}` tag per entry. -/
def secondaryMoodsSection (ma : MoodAnalysis) : List String :=
  match ma.secondary_moods with
  | some moods =>
      if moods.length > 0 then
        ["Secondary Moods"] ++ moods.map (fun m => moodEmojiText m ++ " " ++ m)
      else []
  | none => []

/-- The genres section of `MusicRecommendations.js` lines 20-29, flattened to
its text fragments: guarded by
`recommendations.genres && recommendations.genres.length > 0`. -/
def genresSection (r : MusicRecommendations) : List String :=
  match r.genres with
  | some gs => if gs.length > 0 then ["Genres:"] ++ gs else []
  | none => []

/-- One playlist card, `MusicRecommendations.js` lines 83-110, flattened to
its text fragments; `playlist.description && …` and `playlist.tracks && …`
are JavaScript truthiness tests, so an empty description or a zero track
count is omitted. -/
def playlistCard (p : Playlist) : List String :=
  (match p.image with | some img => [img] | none => []) ++
  [p.name] ++
  (match p.description with
   | some d => if d ≠ "" then [d] else []
   | none => []) ++
  (match p.tracks with
   | some n => if n ≠ 0 then [Nat.repr n ++ " tracks"] else []
   | none => []) ++
  (match p.url with | some u => [u] | none => [])

/-- The playlists section of `MusicRecommendations.js` lines 78-114:
guarded by `playlists && playlists.length > 0`. -/
def playlistsSection (ps : Option (List Playlist)) : List String :=
  match ps with
  | some l =>
      if l.length > 0 then ["Curated Playlists"] ++ l.flatMap playlistCard
      else []
  | none => []

/- ================= Request Orchestrator: App.js (part_000) ============== -/

/-- The `App` component's state, `App.js` lines 8-11: the four `useState`
hooks `analyzing`, `result`, `error`, `resetKey`. -/
structure AppState where
  analyzing : Bool
  result : Option AnalysisResult
  error : Option String
  resetKey : Nat
deriving DecidableEq

/-- The initial `App` state: `useState(false)`, `useState(null)`,
`useState(null)`, `useState(0)`. -/
def initAppState : AppState :=
  { analyzing := false, result := none, error := none, resetKey := 0 }

/-- The spec's `LifecycleState` sum type (§3). -/
inductive LifecycleState where
  | Idle
  | Analyzing
  | Succeeded (r : AnalysisResult)
  | Failed (msg : String)
deriving DecidableEq

/-- The lifecycle state the `App` flags denote: `analyzing` marks
`Analyzing`; otherwise a set `error` marks `Failed`, a set `result` marks
`Succeeded`, and neither marks `Idle`. -/
def lifecycleOf (s : AppState) : LifecycleState :=
  if s.analyzing then .Analyzing
  else
    match s.error, s.result with
    | some m, _ => .Failed m
    | none, some r => .Succeeded r
    | none, none => .Idle

/-- An input file as seen by `ImageUpload`: its declared MIME type
(`file.type`); the bytes stay opaque. -/
structure UploadFile where
  mime : String
deriving DecidableEq

/-- The one outbound HTTP request `handleImageUpload` can issue,
`App.js` lines 18-25: `POST` of a multipart body with field `file` to the
fixed analyze URL. -/
structure OutboundRequest where
  url : String
  method : String
  fileField : UploadFile
deriving DecidableEq

/-- The synchronous prefix of `handleImageUpload`, `App.js` lines 14-16:
`setAnalyzing(true); setError(null); setResult(null)`. -/
def handleImageUploadStart (s : AppState) : AppState :=
  { s with analyzing := true, error := none, result := none }

/-- The requests issued by one `handleImageUpload` call, `App.js`
lines 18-25: exactly the single `fetch` of the analyze endpoint. -/
def handleImageUploadRequests (f : UploadFile) : List OutboundRequest :=
  [{ url := "http://localhost:8000/analyze?track_limit=20&include_playlists=true",
     method := "POST", fileField := f }]

/-- An HTTP response as `fetch` resolves it: a status code and a body that
either decodes as JSON to an `AnalysisResult` or fails with a message. -/
structure HttpResponse where
  status : Nat
  body : Except String AnalysisResult

/-- Property `response.ok`: status in the inclusive range 200-299. -/
def responseOk (r : HttpResponse) : Bool :=
  200 ≤ r.status && r.status < 300

/-- The outcome of the `fetch` promise: a response, or a network-level
rejection carrying an error message. -/
inductive FetchResult where
  | response (r : HttpResponse)
  | networkError (msg : String)

/-- The continuation of `handleImageUpload` after `await fetch`, `App.js`
lines 27-37: `if (!response.ok) throw new Error('Failed to analyze image')`;
otherwise `setResult(await response.json())`, a decode failure or network
failure landing in `catch` as `setError(err.message)`; `finally
setAnalyzing(false)`. -/
def handleImageUploadComplete (s : AppState) : FetchResult → AppState
  | .response r =>
      if responseOk r then
        match r.body with
        | .ok data => { s with result := some data, analyzing := false }
        | .error m => { s with error := some m, analyzing := false }
      else { s with error := some "Failed to analyze image", analyzing := false }
  | .networkError m => { s with error := some m, analyzing := false }

/-- Function `handleReset`, `App.js` lines 40-45: clear `result`, `error`,
`analyzing` and bump `resetKey` to force `ImageUpload` to remount. -/
def handleReset (s : AppState) : AppState :=
  { result := none, error := none, analyzing := false, resetKey := s.resetKey + 1 }

/-- Per `App.js` line 78: the mood panel renders exactly when `result` is set. -/
def rendersMoodPanel (s : AppState) : Bool := s.result.isSome

/-- Per `App.js` line 78: the music panel renders exactly when `result` is set. -/
def rendersMusicPanel (s : AppState) : Bool := s.result.isSome

/-- Per `App.js` line 65: the error panel renders exactly when `error` is set. -/
def rendersErrorPanel (s : AppState) : Bool := s.error.isSome

/- ================= Upload Capture: ImageUpload.js (part_001) ============ -/

/-- The `ImageUpload` component's local state, `ImageUpload.js` lines 5-6:
`dragActive` and the data-URI `preview`. -/
structure ImageUploadState where
  dragActive : Bool
  preview : Option String
deriving DecidableEq

/-- The initial `ImageUpload` state: `useState(false)`, `useState(null)`. -/
def initialImageUploadState : ImageUploadState :=
  { dragActive := false, preview := none }

/-- What one `handleFile` call does, `ImageUpload.js` lines 36-52, at the
moment it returns (the preview data-URI arrives only in the later
`reader.onloadend` event, so `handleFile` itself never changes `preview`). -/
structure HandleFileOutcome where
  alerted : Bool
  previewReadStarted : Bool
  submitted : Option UploadFile
deriving DecidableEq

/-- Function `handleFile` from `ImageUpload.js` lines 36-52: a file whose declared
type does not start with `image/` gets an alert and an early return;
otherwise a preview read is started and `onImageUpload(file)` is invoked. -/
def handleFile (f : UploadFile) : HandleFileOutcome :=
  if !(jsStartsWith f.mime "image/") then
    { alerted := true, previewReadStarted := false, submitted := none }
  else
    { alerted := false, previewReadStarted := true, submitted := some f }

/-- React's keyed remount, `App.js` line 55 (`key={resetKey}` on
`ImageUpload`): when the key changes, the child component is torn down and
remounted in its initial state; with the key unchanged it keeps its state. -/
def keyedRemount (oldKey newKey : Nat) (u : ImageUploadState) : ImageUploadState :=
  if newKey = oldKey then u else initialImageUploadState

/-- Modelled from the spec: `ImageUpload.css` is not among the source files,
and with it the styling that the spec says disables the upload surface
while `Analyzing` ("the Upload Capture's interactive area is
disabled/styled inert during this state", spec §4.2, §5). A drop or
file-picker event is delivered to `handleFile` exactly when the surface is
interactive, i.e. when `analyzing` is false. -/
def surfaceInteractive (analyzing : Bool) : Bool :=
  !analyzing

/-- The result of delivering one file-selection or drop event to the UI. -/
structure FileEventResult where
  app : AppState
  requests : List OutboundRequest
  submitInvoked : Bool
deriving DecidableEq

/-- One file-selection or drop event against the whole client: if the
surface is interactive the event reaches `handleFile`; a submitted file
runs the synchronous prefix of `handleImageUpload`, issuing its requests. -/
def processFileEvent (s : AppState) (f : UploadFile) : FileEventResult :=
  if surfaceInteractive s.analyzing then
    match (handleFile f).submitted with
    | some g => ⟨handleImageUploadStart s, handleImageUploadRequests g, true⟩
    | none => ⟨s, [], false⟩
  else ⟨s, [], false⟩

/- ==================== The client as a transition system ================= -/

/-- The whole client's state: the `App` flags plus whether an outbound
request is currently in flight (`pending` is physical fact, not a flag the
code stores: the `fetch` promise of a submit is unresolved). -/
structure SysState where
  app : AppState
  pending : Bool
deriving DecidableEq

/-- The initial system state: `App` mounted fresh, no request in flight. -/
def initSysState : SysState :=
  { app := initAppState, pending := false }

/-- The events that drive the client. -/
inductive AppEvent where
  | fileSelected (f : UploadFile)
  | responseArrived (r : FetchResult)
  | resetClicked

/-- One step of the client.
* `fileSelected` always fires; `processFileEvent` decides whether it
  reaches `handleFile` and submits (issuing a request, making one pending).
* `responseArrived` can fire only while a request is actually in flight —
  the continuation of `handleImageUpload` after `await fetch` runs exactly
  when its promise resolves.
* `resetClicked` can fire only when the reset button is rendered,
  `App.js` line 57: `result || error`. -/
inductive SysStep : SysState → AppEvent → SysState → Prop
  | file (s : SysState) (f : UploadFile) :
      SysStep s (.fileSelected f)
        { app := (processFileEvent s.app f).app,
          pending := s.pending || !(processFileEvent s.app f).requests.isEmpty }
  | complete (s : SysState) (r : FetchResult) (h : s.pending = true) :
      SysStep s (.responseArrived r)
        { app := handleImageUploadComplete s.app r, pending := false }
  | reset (s : SysState)
      (h : s.app.result.isSome = true ∨ s.app.error.isSome = true) :
      SysStep s .resetClicked { app := handleReset s.app, pending := false }

/-- The states the client can reach from a fresh mount. -/
inductive SysReachable : SysState → Prop
  | init : SysReachable initSysState
  | step {s s' : SysState} {e : AppEvent} :
      SysReachable s → SysStep s e s' → SysReachable s'

/-- The inductive invariant of the client: the pending flag coincides with
`analyzing`, and while analyzing both `result` and `error` are clear, so
they are never simultaneously set. -/
def sysInvariant (s : SysState) : Prop :=
  s.pending = s.app.analyzing ∧
  (s.app.analyzing = true → s.app.result = none ∧ s.app.error = none) ∧
  ¬(s.app.result.isSome = true ∧ s.app.error.isSome = true)

lemma processFileEvent_analyzing (s : AppState) (f : UploadFile)
    (h : s.analyzing = true) : processFileEvent s f = ⟨s, [], false⟩ := by
  simp [processFileEvent, surfaceInteractive, h]

lemma processFileEvent_invalid (s : AppState) (f : UploadFile)
    (h : jsStartsWith f.mime "image/" = false) :
    processFileEvent s f = ⟨s, [], false⟩ := by
  unfold processFileEvent
  rcases hi : surfaceInteractive s.analyzing with _ | _
  · simp
  · simp [handleFile, h]

lemma processFileEvent_idle_valid (s : AppState) (f : UploadFile)
    (h : s.analyzing = false) (hv : jsStartsWith f.mime "image/" = true) :
    processFileEvent s f =
      ⟨handleImageUploadStart s, handleImageUploadRequests f, true⟩ := by
  simp [processFileEvent, surfaceInteractive, h, handleFile, hv]

lemma sysInvariant_init : sysInvariant initSysState := by
  refine ⟨rfl, ?_, ?_⟩ <;> simp [initSysState, initAppState]

lemma sysInvariant_step {s s' : SysState} {e : AppEvent}
    (hs : sysInvariant s) (st : SysStep s e s') : sysInvariant s' := by
  obtain ⟨hp, ha, hm⟩ := hs
  cases st with
  | file f =>
      rcases han : s.app.analyzing with _ | _
      · have hpf : s.pending = false := by rw [hp, han]
        rcases hv : jsStartsWith f.mime "image/" with _ | _
        · rw [processFileEvent_invalid s.app f hv]
          exact ⟨by simp [hpf, han], ha, hm⟩
        · rw [processFileEvent_idle_valid s.app f han hv]
          refine ⟨?_, ?_, ?_⟩ <;>
            simp [hpf, handleImageUploadStart, handleImageUploadRequests]
      · rw [processFileEvent_analyzing s.app f han]
        exact ⟨by simp [hp, han], ha, hm⟩
  | complete r h =>
      have han : s.app.analyzing = true := by rw [← hp]; exact h
      obtain ⟨hr, he⟩ := ha han
      cases r with
      | response resp =>
          rcases hok : responseOk resp with _ | _
          · refine ⟨?_, ?_, ?_⟩ <;>
              simp [handleImageUploadComplete, hok, hr, he]
          · rcases hbody : resp.body with m | data <;>
              refine ⟨?_, ?_, ?_⟩ <;>
                simp [handleImageUploadComplete, hok, hbody, hr, he]
      | networkError m =>
          refine ⟨?_, ?_, ?_⟩ <;>
            simp [handleImageUploadComplete, hr, he]
  | reset h =>
      refine ⟨rfl, ?_, ?_⟩ <;> simp [handleReset]

lemma sysReachable_invariant {s : SysState} (h : SysReachable s) :
    sysInvariant s := by
  induction h with
  | init => exact sysInvariant_init
  | step _ st ih => exact sysInvariant_step ih st

/- ==================== Sample values used by witnesses =================== -/

/-- A valid image file: declared MIME type `image/png`. -/
def pngFile : UploadFile := { mime := "image/png" }

/-- A non-image file: declared MIME type `text/plain`. -/
def textFile : UploadFile := { mime := "text/plain" }

/-- A sample decoded `mood_analysis` payload. -/
def sampleMoodAnalysis : MoodAnalysis :=
  { primary_mood := "Calm", confidence := 85/100,
    secondary_moods := some ["Dreamy"], reasoning := none,
    visual_elements := none }

/-- A sample decoded `music_recommendations` payload. -/
def sampleRecs : MusicRecommendations :=
  { mood := "Calm", mood_description := "Peaceful and serene",
    genres := some ["ambient", "lo-fi"], track_count := 0, tracks := [] }

/-- An `App` state sitting in `Failed`, as after a 500 response. -/
def failedAppState : AppState :=
  { analyzing := false, result := none,
    error := some "Failed to analyze image", resetKey := 0 }

/- =========================== Helper lemmas ============================== -/

lemma lifecycleOf_idle_not_analyzing {s : AppState}
    (h : lifecycleOf s = LifecycleState.Idle) : s.analyzing = false := by
  rcases han : s.analyzing with _ | _
  · rfl
  · exfalso
    unfold lifecycleOf at h
    rw [han] at h
    simp at h

lemma lifecycleOf_analyzing_true {s : AppState}
    (h : lifecycleOf s = LifecycleState.Analyzing) : s.analyzing = true := by
  rcases han : s.analyzing with _ | _
  · exfalso
    unfold lifecycleOf at h
    rw [han] at h
    rcases he : s.error with _ | m <;> rcases hr : s.result with _ | r <;>
      simp [he, hr] at h
  · rfl

lemma padStart_repr_length_two :
    ∀ n : Nat, n < 61 → (padStart (Nat.repr n) 2 '0').length = 2 := by
  decide

lemma lookup_mem_snd {α β : Type} [BEq α] {l : List (α × β)} {k : α} {v : β}
    (h : List.lookup k l = some v) : ∃ p ∈ l, p.2 = v := by
  induction l with
  | nil => simp [List.lookup] at h
  | cons p t ih =>
      rw [List.lookup] at h
      rcases hb : k == p.1 with _ | _
      · rw [hb] at h
        obtain ⟨q, hq, hqe⟩ := ih h
        exact ⟨q, List.mem_cons_of_mem p hq, hqe⟩
      · rw [hb] at h
        simp at h
        exact ⟨p, List.mem_cons_self p t, h⟩

lemma moodEmojis_values_nonempty : ∀ p ∈ moodEmojis, p.2 ≠ "" := by
  decide

/- ============================ The claims ================================ -/

/-- C1: while the lifecycle state is `Idle`, delivering a valid image file
reaches `handleFile`, which invokes the orchestrator's submit, and that one
`handleImageUpload` call issues exactly one outbound request; while the
lifecycle state is `Analyzing`, a file-selection or drop event issues no
request, never invokes submit, and leaves the `App` state unchanged (the
upload surface is inert — spec-modelled via `surfaceInteractive`, since the
disabling styling lives in `ImageUpload.css`, which is outside `src/`). -/
theorem C1_one_request_per_submit (s : AppState) (f : UploadFile) :
    (lifecycleOf s = LifecycleState.Idle →
      jsStartsWith f.mime "image/" = true →
        (processFileEvent s f).submitInvoked = true ∧
        (processFileEvent s f).requests.length = 1) ∧
    (lifecycleOf s = LifecycleState.Analyzing →
        (processFileEvent s f).submitInvoked = false ∧
        (processFileEvent s f).requests = [] ∧
        (processFileEvent s f).app = s) := by
  constructor
  · intro hidle hv
    rw [processFileEvent_idle_valid s f (lifecycleOf_idle_not_analyzing hidle) hv]
    exact ⟨rfl, rfl⟩
  · intro hana
    rw [processFileEvent_analyzing s f (lifecycleOf_analyzing_true hana)]
    exact ⟨rfl, rfl, rfl⟩

/-- Witness for C1 at concrete states: from the initial (idle) state a PNG
submission issues one request; while analyzing it issues none. -/
theorem C1_one_request_per_submit_witness :
    (processFileEvent initAppState pngFile).requests.length = 1 ∧
    (processFileEvent (handleImageUploadStart initAppState) pngFile).requests
      = [] :=
  ⟨((C1_one_request_per_submit initAppState pngFile).1 rfl rfl).2,
   ((C1_one_request_per_submit (handleImageUploadStart initAppState)
      pngFile).2 rfl).2.1⟩

/-- C2: in every reachable state of the client, `result` and `error` are
never both set (`Succeeded` and `Failed` are mutually exclusive), and any
step that newly sets one of them is the arrival of a response to a request
issued by a submit — it fires from a state with the in-flight `analyzing`
flag set, i.e. only at the completion of a submit that passed through
`Analyzing`. -/
theorem C2_succeeded_failed_exclusive (s : SysState) (h : SysReachable s) :
    ¬(s.app.result.isSome = true ∧ s.app.error.isSome = true) ∧
    (∀ e s', SysStep s e s' →
      ((s'.app.result.isSome = true ∧ s.app.result.isSome = false) ∨
       (s'.app.error.isSome = true ∧ s.app.error.isSome = false)) →
      s.app.analyzing = true ∧ ∃ r, e = AppEvent.responseArrived r) := by
  obtain ⟨hp, ha, hm⟩ := sysReachable_invariant h
  refine ⟨hm, ?_⟩
  intro e s' st hen
  cases st with
  | file f =>
      exfalso
      rcases han : s.app.analyzing with _ | _
      · rcases hv : jsStartsWith f.mime "image/" with _ | _
        · rw [processFileEvent_invalid s.app f hv] at hen
          rcases hen with ⟨h1, h2⟩ | ⟨h1, h2⟩ <;> simp_all
        · rw [processFileEvent_idle_valid s.app f han hv] at hen
          simp [handleImageUploadStart] at hen
      · rw [processFileEvent_analyzing s.app f han] at hen
        rcases hen with ⟨h1, h2⟩ | ⟨h1, h2⟩ <;> simp_all
  | complete r hpend =>
      exact ⟨by rw [← hp]; exact hpend, r, rfl⟩
  | reset hre =>
      exfalso
      simp [handleReset] at hen

/-- Witness for C2 at the initial state. -/
theorem C2_succeeded_failed_exclusive_witness :
    ¬(initSysState.app.result.isSome = true ∧
      initSysState.app.error.isSome = true) :=
  (C2_succeeded_failed_exclusive initSysState SysReachable.init).1

/-- C3: completing a submit with any non-success HTTP status yields the
lifecycle state `Failed "Failed to analyze image"` — exactly the generic
message, never the transport error — with no result stored, so neither the
mood panel nor the music panel renders, while the error panel does. -/
theorem C3_generic_failure_message (s : AppState) (resp : HttpResponse)
    (h : responseOk resp = false) :
    lifecycleOf (handleImageUploadComplete (handleImageUploadStart s)
        (.response resp)) = LifecycleState.Failed "Failed to analyze image" ∧
    (handleImageUploadComplete (handleImageUploadStart s)
        (.response resp)).error = some "Failed to analyze image" ∧
    (handleImageUploadComplete (handleImageUploadStart s)
        (.response resp)).result = none ∧
    rendersMoodPanel (handleImageUploadComplete (handleImageUploadStart s)
        (.response resp)) = false ∧
    rendersMusicPanel (handleImageUploadComplete (handleImageUploadStart s)
        (.response resp)) = false ∧
    rendersErrorPanel (handleImageUploadComplete (handleImageUploadStart s)
        (.response resp)) = true := by
  refine ⟨?_, ?_, ?_, ?_, ?_, ?_⟩ <;>
    simp [handleImageUploadStart, handleImageUploadComplete, h, lifecycleOf,
      rendersMoodPanel, rendersMusicPanel, rendersErrorPanel]

/-- Witness for C3: a status-500 response to a submit from the initial
state ends in `Failed "Failed to analyze image"`. -/
theorem C3_generic_failure_message_witness :
    lifecycleOf (handleImageUploadComplete (handleImageUploadStart initAppState)
        (.response { status := 500, body := Except.error "Internal Server Error" }))
      = LifecycleState.Failed "Failed to analyze image" :=
  (C3_generic_failure_message initAppState
    { status := 500, body := Except.error "Internal Server Error" }
    (by decide)).1

/-- C4: a file whose declared content type does not start with `image/`
makes `handleFile` alert and return early: submit is not invoked, no
preview read is started (the existing preview stays), and the whole file
event leaves the `App` state — and hence the lifecycle state — unchanged,
issuing no request. -/
theorem C4_non_image_rejected (s : AppState) (f : UploadFile)
    (h : jsStartsWith f.mime "image/" = false) :
    (handleFile f).alerted = true ∧
    (handleFile f).submitted = none ∧
    (handleFile f).previewReadStarted = false ∧
    processFileEvent s f = ⟨s, [], false⟩ ∧
    lifecycleOf (processFileEvent s f).app = lifecycleOf s := by
  have hpe := processFileEvent_invalid s f h
  refine ⟨?_, ?_, ?_, hpe, by rw [hpe]⟩ <;> simp [handleFile, h]

/-- Witness for C4 at a concrete text file against the initial state. -/
theorem C4_non_image_rejected_witness :
    (handleFile textFile).submitted = none ∧
    processFileEvent initAppState textFile = ⟨initAppState, [], false⟩ :=
  ⟨(C4_non_image_rejected initAppState textFile (by decide)).2.1,
   (C4_non_image_rejected initAppState textFile (by decide)).2.2.2.1⟩

/-- C5: from any `Succeeded` or `Failed` state, `handleReset` yields the
lifecycle state `Idle` with `result`, `error` and the in-flight flag all
cleared, and bumps `resetKey`, which remounts `ImageUpload`
(`key={resetKey}`) into its initial state, whose preview is empty. -/
theorem C5_reset_returns_to_idle (s : AppState) (u : ImageUploadState)
    (h : (∃ r, lifecycleOf s = LifecycleState.Succeeded r) ∨
         (∃ m, lifecycleOf s = LifecycleState.Failed m)) :
    lifecycleOf (handleReset s) = LifecycleState.Idle ∧
    (handleReset s).result = none ∧
    (handleReset s).error = none ∧
    (handleReset s).analyzing = false ∧
    (handleReset s).resetKey ≠ s.resetKey ∧
    keyedRemount s.resetKey (handleReset s).resetKey u
      = initialImageUploadState ∧
    initialImageUploadState.preview = none := by
  refine ⟨rfl, rfl, rfl, rfl, by simp [handleReset], ?_, rfl⟩
  simp [keyedRemount, handleReset]

/-- Witness for C5 at a concrete `Failed` state with a non-empty preview. -/
theorem C5_reset_returns_to_idle_witness :
    lifecycleOf (handleReset failedAppState) = LifecycleState.Idle ∧
    keyedRemount failedAppState.resetKey (handleReset failedAppState).resetKey
      { dragActive := false, preview := some "data:image/png;base64,AAAA" }
      = initialImageUploadState :=
  ⟨(C5_reset_returns_to_idle failedAppState
      { dragActive := false, preview := some "data:image/png;base64,AAAA" }
      (Or.inr ⟨"Failed to analyze image", rfl⟩)).1,
   (C5_reset_returns_to_idle failedAppState
      { dragActive := false, preview := some "data:image/png;base64,AAAA" }
      (Or.inr ⟨"Failed to analyze image", rfl⟩)).2.2.2.2.2.1⟩

/-- Counterexample to C6 as stated: at 1500 ms the code renders `"0:02"`
(`toFixed(0)` rounds 1.5 up) while the claimed formula gives `"0:01"`, and
at 119500 ms the code renders `"1:60"`, a seconds field outside 00-59. -/
theorem C6_counterexample :
    formatDuration 1500 ≠ formatDurationSpecC6 1500 ∧
    formatDuration 119500 = "1:60" := by
  decide

/-- C6 (amended): the rendered duration is `m:ss` where `m = ms div 60000`
and `ss` is the zero-padded two-digit decimal of the half-up rounding
`(ms mod 60000 + 500) div 1000` — a value between 00 and 60 inclusive, not
00 to 59: `toFixed(0)` rounds rather than truncates the seconds. -/
theorem C6_duration_format (ms : Nat) :
    formatDuration ms =
      Nat.repr (ms / 60000) ++ ":" ++
        padStart (Nat.repr ((ms % 60000 + 500) / 1000)) 2 '0' ∧
    (ms % 60000 + 500) / 1000 ≤ 60 ∧
    (padStart (Nat.repr ((ms % 60000 + 500) / 1000)) 2 '0').length = 2 := by
  refine ⟨rfl, by omega, ?_⟩
  exact padStart_repr_length_two _ (by omega)

/-- C7: the three duration examples of the spec. -/
theorem C7_duration_examples :
    formatDuration 65000 = "1:05" ∧
    formatDuration 600000 = "10:00" ∧
    formatDuration 5000 = "0:05" := by
  decide

/-- C8: the confidence-bar fill width is the pure linear map
`confidence * 100`, with no clamping or rounding (it is additive and
homogeneous), and at confidence 0.73 the rendered width is `73%`. -/
theorem C8_confidence_bar_linear (c : ℚ) :
    (0 ≤ c → c ≤ 1 → confidenceFillWidth c = c * 100) ∧
    (∀ d : ℚ, confidenceFillWidth (c + d)
      = confidenceFillWidth c + confidenceFillWidth d) ∧
    (∀ a : ℚ, confidenceFillWidth (a * c) = a * confidenceFillWidth c) ∧
    confidenceFillStyle (73/100) = "73%" := by
  refine ⟨fun _ _ => rfl, ?_, ?_, ?_⟩
  · intro d
    simp [confidenceFillWidth]
    ring
  · intro a
    simp [confidenceFillWidth]
    ring
  · have hw : confidenceFillWidth (73/100) = (73 : ℚ) := by
      norm_num [confidenceFillWidth]
    show toString (confidenceFillWidth (73/100)) ++ "%" = "73%"
    rw [hw]
    decide

/-- Witness for C8 at confidence 0.73. -/
theorem C8_confidence_bar_linear_witness :
    confidenceFillWidth (73/100) = (73/100 : ℚ) * 100 :=
  (C8_confidence_bar_linear (73/100)).1 (by norm_num) (by norm_num)

/-- Counterexample to C9 as stated: `"constructor"` is not a key of the
mood table, yet the fallback emoji is not rendered — the property read
walks the prototype chain and yields the inherited, truthy constructor
function, so `||` never fires — and `"__proto__"` is not a key either,
yet instead of showing the fallback the render fails: the inherited
accessor yields `Object.prototype`, and an object is not a valid React
child. -/
theorem C9_counterexample :
    moodEmojis.lookup (jsToLowerCase "constructor") = none ∧
    getMoodEmoji "constructor" ≠ JsPropValue.str "🎨" ∧
    renderedMoodChild "constructor" ≠ some "🎨" ∧
    moodEmojis.lookup (jsToLowerCase "__proto__") = none ∧
    renderedMoodChild "__proto__" = none := by
  decide

/-- C9 (amended): the rendered emoji is the `moodEmojis` entry keyed by
the lower-cased label when one exists (the Kelvin-sign spelling of
`"DARK"` included); for a label whose lower-casing is neither a table key
nor an inherited `Object.prototype` property name, the fixed fallback
`🎨` is rendered — in particular for `"ecstatic"`; but on the inherited
names the fallback never fires: `"constructor"` yields the inherited
constructor function and `"__proto__"` yields `Object.prototype`, which
aborts the render. The primary mood and every secondary tag go through
the same `getMoodEmoji`. -/
theorem C9_mood_emoji_fallback (label : String) (ma : MoodAnalysis) :
    (∀ e, moodEmojis.lookup (jsToLowerCase label) = some e →
      getMoodEmoji label = JsPropValue.str e) ∧
    (moodEmojis.lookup (jsToLowerCase label) = none →
      jsToLowerCase label ≠ "__proto__" →
      objectPrototypeMethods.contains (jsToLowerCase label) = false →
      getMoodEmoji label = JsPropValue.str "🎨" ∧
      renderedMoodChild label = some "🎨") ∧
    getMoodEmoji "ecstatic" = JsPropValue.str "🎨" ∧
    getMoodEmoji "DAR\u212A" = JsPropValue.str "🌑" ∧
    getMoodEmoji "constructor" = JsPropValue.protoFunction "constructor" ∧
    renderedMoodChild "__proto__" = none ∧
    renderedPrimaryEmoji ma = renderedMoodChild ma.primary_mood ∧
    (∀ moods, ma.secondary_moods = some moods → moods ≠ [] →
      secondaryMoodsSection ma =
        ["Secondary Moods"] ++
          moods.map (fun m => moodEmojiText m ++ " " ++ m)) := by
  refine ⟨?_, ?_, by decide, by decide, by decide, by decide, rfl, ?_⟩
  · intro e h
    have hne : e ≠ "" := by
      obtain ⟨p, hp, hpe⟩ := lookup_mem_snd h
      exact hpe ▸ moodEmojis_values_nonempty p hp
    simp [getMoodEmoji, moodEmojisGet, h, JsPropValue.truthy, hne]
  · intro h hp hm
    have hm2 : jsToLowerCase label ∉ objectPrototypeMethods := by simpa using hm
    constructor <;>
      simp [renderedMoodChild, getMoodEmoji, moodEmojisGet, h, hp, hm2,
        JsPropValue.truthy]
  · intro moods h hne
    have hl : 0 < moods.length := List.length_pos.mpr hne
    simp [secondaryMoodsSection, h, hl]

/-- Witness for C9: a table hit, and a genuinely unrecognized label that
reaches the fallback because it collides with no inherited name. -/
theorem C9_mood_emoji_fallback_witness :
    getMoodEmoji "Calm" = JsPropValue.str "😌" ∧
    getMoodEmoji "ecstatic" = JsPropValue.str "🎨" ∧
    renderedMoodChild "ecstatic" = some "🎨" :=
  ⟨(C9_mood_emoji_fallback "Calm" sampleMoodAnalysis).1 "😌" (by decide),
   ((C9_mood_emoji_fallback "ecstatic" sampleMoodAnalysis).2.1 (by decide)
      (by decide) (by decide)).1,
   ((C9_mood_emoji_fallback "ecstatic" sampleMoodAnalysis).2.1 (by decide)
      (by decide) (by decide)).2⟩

/-- C10: each of the genres section, the playlists section and the
secondary-moods section renders (is non-empty) exactly when its list field
is present and non-empty, and an empty list yields exactly the rendered
output of an absent field. -/
theorem C10_empty_equals_absent (r : MusicRecommendations)
    (ma : MoodAnalysis) (ps : List Playlist) :
    genresSection { r with genres := some [] }
      = genresSection { r with genres := none } ∧
    (genresSection r ≠ [] ↔ ∃ gs, r.genres = some gs ∧ gs ≠ []) ∧
    playlistsSection (some []) = playlistsSection none ∧
    (playlistsSection (some ps) ≠ [] ↔ ps ≠ []) ∧
    secondaryMoodsSection { ma with secondary_moods := some [] }
      = secondaryMoodsSection { ma with secondary_moods := none } ∧
    (secondaryMoodsSection ma ≠ []
      ↔ ∃ ms, ma.secondary_moods = some ms ∧ ms ≠ []) := by
  refine ⟨rfl, ?_, rfl, ?_, rfl, ?_⟩
  · rcases hg : r.genres with _ | gs
    · simp [genresSection, hg]
    · rcases gs with _ | ⟨g, gs'⟩ <;> simp [genresSection, hg]
  · rcases ps with _ | ⟨p, ps'⟩ <;> simp [playlistsSection]
  · rcases hm : ma.secondary_moods with _ | ms
    · simp [secondaryMoodsSection, hm]
    · rcases ms with _ | ⟨m, ms'⟩ <;> simp [secondaryMoodsSection, hm]

/-- Witness for C10 at concrete payloads. -/
theorem C10_empty_equals_absent_witness :
    genresSection { sampleRecs with genres := some [] }
      = genresSection { sampleRecs with genres := none } ∧
    playlistsSection (some []) = playlistsSection none :=
  ⟨(C10_empty_equals_absent sampleRecs sampleMoodAnalysis []).1,
   (C10_empty_equals_absent sampleRecs sampleMoodAnalysis []).2.2.1⟩
